import Mathlib

/-!
Shallow embedding of the asio-socks5-proxy SOCKS5 server
(`boost_socks5.cpp`): the per-session protocol handlers
(`read_socks5_handshake`, `write_socks5_handshake`, `read_socks5_request`,
`write_socks5_response`, the relay handlers of `do_read` / `do_write`),
the acceptor loop of `Server::do_accept`, and the exit behaviour of `main`.

Buffers (`std::vector<char>`) are modelled as total functions from index to
byte value; reads that the C++ performs through `uint8_t` go through
`byteAt`, which reduces modulo 256 exactly as the char-to-uint8_t
conversion does.
-/

/-- A session I/O buffer (`in_buf_` / `out_buf_`): byte value at each index. -/
abbrev Buf := Nat → Nat

/-- Reading a buffer element as the C++ code does (char read as a byte). -/
def byteAt (b : Buf) (i : Nat) : Nat := b i % 256

/-- Assignment `b[i] = v` on a buffer. -/
def setBuf (b : Buf) (i v : Nat) : Buf := fun j => if j = i then v else b j

/-- A concrete buffer from a list of bytes (unreceived positions are 0). -/
def bufOfList (l : List Nat) : Buf := fun i => l.getD i 0

/-- `std::memcpy(&b[start], src, src.length)` on a buffer. -/
def memcpyBuf (b : Buf) (start : Nat) (src : List Nat) : Buf :=
  fun i => if start ≤ i ∧ i - start < src.length then src.getD (i - start) 0 else b i

/-- The first `len` bytes of a buffer, as transmitted by
`asio::async_write(sock, asio::buffer(buf, len), ...)`. -/
def writtenBytes (b : Buf) (len : Nat) : List Nat := (List.range len).map b

/-! ## READ_GREETING / WRITE_GREETING (`Session::read_socks5_handshake`,
`Session::write_socks5_handshake`) -/

/-- The method-scan loop of `read_socks5_handshake`: for
`method = 0 .. num_methods-1`, test `in_buf_[2+method] == 0x00`. -/
def findNoAuth (buf : Buf) (num_methods : Nat) : Bool :=
  (List.range num_methods).any (fun method => byteAt buf (2 + method) == 0x00)

/-- `in_buf_` after the line `in_buf_[1] = 0xFF;` of `read_socks5_handshake`. -/
def greetingScanBuf (buf : Buf) : Buf := setBuf buf 1 0xFF

/-- Whether the scan of `read_socks5_handshake` finds method `0x00`
(NO AUTHENTICATION REQUIRED) among the `in_buf_[1]` advertised methods. -/
def hasNoAuthMethod (buf : Buf) : Bool :=
  findNoAuth (greetingScanBuf buf) (byteAt buf 1)

/-- `in_buf_` after the scan loop of `read_socks5_handshake`: `in_buf_[1]`
is `0x00` when method `0x00` was found and `0xFF` otherwise. -/
def greetingReplyBuf (buf : Buf) : Buf :=
  if hasNoAuthMethod buf then setBuf (greetingScanBuf buf) 1 0x00
  else greetingScanBuf buf

/-- The second reply byte prepared by `read_socks5_handshake`. -/
def greetingReply1 (buf : Buf) : Nat :=
  if hasNoAuthMethod buf then 0x00 else 0xFF

/-- Outcome of the receive-completion handler of `read_socks5_handshake`:
either the session returns (and is destroyed, i.e. CLOSED), or it issues
`write_socks5_handshake`, transmitting the given two bytes from the
updated buffer. -/
inductive GreetStep
  | closed
  | writeBytes (bytes : List Nat) (buf : Buf)

/-- Success-completion handler of the receive in
`Session::read_socks5_handshake`, given the received `length` and the
buffer contents: reject when `length < 3 || in_buf_[0] != 0x05`;
otherwise scan the methods, overwrite `in_buf_[1]`, and write the first
two bytes of the buffer back to the client. -/
def read_socks5_handshake (length : Nat) (buf : Buf) : GreetStep :=
  if length < 3 ∨ byteAt buf 0 ≠ 0x05 then GreetStep.closed
  else
    GreetStep.writeBytes
      [byteAt (greetingReplyBuf buf) 0, byteAt (greetingReplyBuf buf) 1]
      (greetingReplyBuf buf)

/-- After WRITE_GREETING, the session either closes or proceeds to
READ_REQUEST. -/
inductive GreetNext
  | closed
  | readRequest
deriving DecidableEq

/-- Success-completion handler of the write in
`Session::write_socks5_handshake`: `if (in_buf_[1] == (char)0xFF) return;`
else `read_socks5_request()`. -/
def write_socks5_handshake (buf : Buf) : GreetNext :=
  if byteAt buf 1 = 0xFF then GreetNext.closed else GreetNext.readRequest

/-! ## The method-scan read indices (for the bounds property) -/

/-- Indices of `in_buf_` actually read by the scan loop of
`read_socks5_handshake`, honouring the `break` on the first `0x00`:
starting at `2 + start` with `fuel` iterations left. -/
def scanReadIndicesAux (buf : Buf) (start : Nat) : Nat → List Nat
  | 0 => []
  | fuel + 1 =>
      (2 + start) ::
        (if byteAt buf (2 + start) = 0x00 then []
         else scanReadIndicesAux buf (start + 1) fuel)

/-- Indices of `in_buf_` read by the method scan of
`read_socks5_handshake` (the loop runs over `num_methods = in_buf_[1]`
entries and breaks at the first `0x00`). -/
def scanReadIndices (buf : Buf) : List Nat :=
  scanReadIndicesAux (greetingScanBuf buf) 0 (byteAt buf 1)

/-- The property claimed of the scan: every index it reads lies below the
number of bytes actually received. -/
def scanWithinReceived (length : Nat) (buf : Buf) : Prop :=
  ∀ i ∈ scanReadIndices buf, i < length

instance (length : Nat) (buf : Buf) : Decidable (scanWithinReceived length buf) :=
  inferInstanceAs (Decidable (∀ i ∈ scanReadIndices buf, i < length))

/-! ## READ_REQUEST (`Session::read_socks5_request`) -/

/-- The session fields `remote_host_`, `remote_port_`. -/
structure HostPort where
  host : String
  port : String
deriving DecidableEq

/-- Outcome of the request handler: `close` models the bare `return`
(session destroyed, CLOSED); `resolve` models falling through to
`do_resolve()` with the current values of `remote_host_` / `remote_port_`. -/
inductive ReqAction
  | close
  | resolve (host port : String)
deriving DecidableEq

/-- `ntohl(*(uint32_t*)&b[i])`: the big-endian 32-bit value of four bytes. -/
def ntohl32 (b0 b1 b2 b3 : Nat) : Nat := ((b0 * 256 + b1) * 256 + b2) * 256 + b3

/-- `ntohs(*(uint16_t*)&b[i])`: the big-endian 16-bit value of two bytes. -/
def ntohs16 (b0 b1 : Nat) : Nat := b0 * 256 + b1

/-- `inet_ntop` for IPv4 / `asio::ip::address_v4::to_string` byte form:
dotted decimal of the four octets. -/
def inet_ntop4 (a b c d : Nat) : String :=
  toString a ++ "." ++ toString b ++ "." ++ toString c ++ "." ++ toString d

/-- `asio::ip::address_v4(x).to_string()`: dotted decimal, most significant
octet of the host-order value first. -/
def address_v4_to_string (x : Nat) : String :=
  inet_ntop4 (x / 2 ^ 24 % 256) (x / 2 ^ 16 % 256) (x / 2 ^ 8 % 256) (x % 256)

/-- One lowercase hexadecimal digit. -/
def hexChar (n : Nat) : Char :=
  if n < 10 then Char.ofNat (48 + n) else Char.ofNat (87 + n)

/-- Hex digits of `n` (most significant first), with enough fuel. -/
def toHexAux : Nat → Nat → List Char
  | 0, _ => []
  | fuel + 1, n => if n = 0 then [] else toHexAux fuel (n / 16) ++ [hexChar (n % 16)]

/-- `sprintf("%x", n)` for a 16-bit group. -/
def toHex (n : Nat) : String :=
  if n = 0 then "0" else String.mk (toHexAux 5 n)

/-- A run of zero 16-bit groups in an IPv6 address (`base == -1` is `none`). -/
structure ZeroRun where
  base : Option Nat
  len : Nat
deriving DecidableEq

/-- `if (best.base == -1 || cur.len > best.len) best = cur;` of `inet_ntop`. -/
def updateBest (best cur : ZeroRun) : ZeroRun :=
  match best.base with
  | none => cur
  | some _ => if best.len < cur.len then cur else best

/-- The zero-run scan loop of `inet_ntop` over the indexed 16-bit groups. -/
def scanRuns : List (Nat × Nat) → ZeroRun → ZeroRun → ZeroRun
  | [], best, cur =>
      match cur.base with
      | none => best
      | some _ => updateBest best cur
  | (i, w) :: rest, best, cur =>
      if w = 0 then
        match cur.base with
        | none => scanRuns rest best ⟨some i, 1⟩
        | some _ => scanRuns rest best ⟨cur.base, cur.len + 1⟩
      else
        match cur.base with
        | none => scanRuns rest best cur
        | some _ => scanRuns rest (updateBest best cur) ⟨none, 0⟩

/-- The best (longest, leftmost) zero run, discarded when shorter than 2,
as computed by `inet_ntop` for IPv6. -/
def bestZeroRun (ws : List Nat) : ZeroRun :=
  let r := scanRuns ws.enum ⟨none, 0⟩ ⟨none, 0⟩
  match r.base with
  | none => r
  | some _ => if r.len < 2 then ⟨none, r.len⟩ else r

/-- Is group `i` inside the best zero run? -/
def inBestRun (best : ZeroRun) (i : Nat) : Bool :=
  match best.base with
  | none => false
  | some b => decide (b ≤ i ∧ i < b + best.len)

/-- The group-emission loop of `inet_ntop` for IPv6, from group `i` with
the given fuel; `quad` is the dotted-decimal rendering of the last four
bytes, used for the embedded-IPv4 forms. -/
def v6emitFrom (w : Nat → Nat) (quad : String) (best : ZeroRun) : Nat → Nat → String
  | _, 0 => ""
  | i, fuel + 1 =>
      if inBestRun best i then
        (if best.base = some i then ":" else "") ++ v6emitFrom w quad best (i + 1) fuel
      else
        (if i ≠ 0 then ":" else "") ++
          (if i = 6 ∧ best.base = some 0 ∧
              (best.len = 6 ∨ (best.len = 7 ∧ w 7 ≠ 0x0001) ∨
                (best.len = 5 ∧ w 5 = 0xffff)) then
             quad
           else toHex (w i) ++ v6emitFrom w quad best (i + 1) fuel)

/-- `asio::ip::address_v6(bytes).to_string()`, i.e. `inet_ntop(AF_INET6, ...)`
on the 16 address bytes `ab 0 .. ab 15`. -/
def address_v6_to_string (ab : Nat → Nat) : String :=
  let w := fun i => (ab (2 * i) % 256) * 256 + ab (2 * i + 1) % 256
  let best := bestZeroRun ((List.range 8).map w)
  let quad := inet_ntop4 (ab 12 % 256) (ab 13 % 256) (ab 14 % 256) (ab 15 % 256)
  let body := v6emitFrom w quad best 0 8
  let trailing :=
    match best.base with
    | some b => if b + best.len = 8 then ":" else ""
    | none => ""
  body ++ trailing

/-- The `remote_host_` string for a DOMAINNAME request: the
`host_length`-byte string starting at `in_buf_[5]`. -/
def domainString (buf : Buf) (host_length : Nat) : String :=
  String.mk ((List.range host_length).map (fun i => Char.ofNat (byteAt buf (5 + i))))

/-- Success-completion handler of the receive in
`Session::read_socks5_request`, given the received `length`, buffer, and
the current `remote_host_` / `remote_port_` fields (`prev`). It mirrors
the source exactly, including the `default:` case of the `switch`, which
logs but then falls through to `do_resolve()` without returning. -/
def read_socks5_request (length : Nat) (buf : Buf) (prev : HostPort) : ReqAction :=
  if length < 5 ∨ byteAt buf 0 ≠ 0x05 ∨ byteAt buf 1 ≠ 0x01 then ReqAction.close
  else
    let addr_type := byteAt buf 3
    if addr_type = 0x01 then
      if length ≠ 10 then ReqAction.close
      else
        ReqAction.resolve
          (address_v4_to_string
            (ntohl32 (byteAt buf 4) (byteAt buf 5) (byteAt buf 6) (byteAt buf 7)))
          (toString (ntohs16 (byteAt buf 8) (byteAt buf 9)))
    else if addr_type = 0x03 then
      let host_length := byteAt buf 4
      if length ≠ 5 + host_length + 2 then ReqAction.close
      else
        ReqAction.resolve (domainString buf host_length)
          (toString (ntohs16 (byteAt buf (5 + host_length)) (byteAt buf (5 + host_length + 1))))
    else if addr_type = 0x04 then
      if length ≠ 22 then ReqAction.close
      else
        ReqAction.resolve (address_v6_to_string (fun k => byteAt buf (4 + k)))
          (toString (ntohs16 (byteAt buf 20) (byteAt buf 21)))
    else
      ReqAction.resolve prev.host prev.port

/-! ## WRITE_REPLY (`Session::write_socks5_response`) -/

/-- The value of `out_socket_.remote_endpoint()`: the upstream peer's
endpoint. `v4` carries `address().to_v4().to_uint()` (host order) and
`port()` (host order); `v6` carries the 16 bytes of
`address().to_v6().to_bytes()` and `port()`; `otherProtocol` models the
final `else` branch of the protocol dispatch. -/
inductive Endpoint
  | v4 (addr : Nat) (port : Nat)
  | v6 (addrBytes : Nat → Nat) (port : Nat)
  | otherProtocol

/-- The four bytes `memcpy`ed from `htonl(x)`: network order, most
significant first. -/
def htonl_bytes (x : Nat) : List Nat :=
  [x / 2 ^ 24 % 256, x / 2 ^ 16 % 256, x / 2 ^ 8 % 256, x % 256]

/-- The two bytes `memcpy`ed from `htons(p)`: network order. -/
def htons_bytes (p : Nat) : List Nat := [p / 256 % 256, p % 256]

/-- `Session::write_socks5_response`, given the buffer and the remote
endpoint of `out_socket_`: populates `in_buf_[0..3]` and the
address/port fields, and returns the buffer together with the number of
bytes to write to the client; `none` models the `return` of the
unsupported-protocol branch (no write, session closes). -/
def write_socks5_response (buf : Buf) (remote_ep : Endpoint) : Option (Buf × Nat) :=
  let b := setBuf (setBuf (setBuf buf 0 0x05) 1 0x00) 2 0x00
  match remote_ep with
  | Endpoint.v4 addr port =>
      let b := setBuf b 3 0x01
      let b := memcpyBuf b 4 (htonl_bytes addr)
      let b := memcpyBuf b 8 (htons_bytes port)
      some (b, 10)
  | Endpoint.v6 addrBytes port =>
      let b := setBuf b 3 0x04
      let b := memcpyBuf b 4 ((List.range 16).map (fun k => addrBytes k % 256))
      let b := memcpyBuf b 20 (htons_bytes port)
      some (b, 22)
  | Endpoint.otherProtocol => none

/-! ## RELAY (`Session::do_read`, `Session::do_write`) -/

/-- Completion status of an asynchronous operation: `ok` is `!ec`,
`eof` is `asio::error::eof`, `otherErr` any other error. -/
inductive Ec
  | ok
  | eof
  | otherErr
deriving DecidableEq

/-- An asynchronous I/O operation a relay handler can issue:
a receive on `in_socket_` / `out_socket_`, or a write of the first `n`
buffer bytes to `out_socket_` / `in_socket_`. -/
inductive Op
  | receiveIn
  | receiveOut
  | writeToOut (n : Nat)
  | writeToIn (n : Nat)
deriving DecidableEq

/-- What a relay completion handler does before returning: which sockets
it closes and which operations it issues. -/
structure HandlerResult where
  closeIn : Bool
  closeOut : Bool
  next : List Op
deriving DecidableEq

/-- The receives issued by `Session::do_read(direction)`: one on
`in_socket_` when bit 0 is set, one on `out_socket_` when bit 1 is set. -/
def do_read_ops (direction : Nat) : List Op :=
  (if direction &&& 0x1 ≠ 0 then [Op.receiveIn] else []) ++
    (if direction &&& 0x2 ≠ 0 then [Op.receiveOut] else [])

/-- Completion handler of the `in_socket_` receive in `do_read`:
on success `do_write(1, length)`; on any error close both sockets. -/
def in_read_handler (ec : Ec) (length : Nat) : HandlerResult :=
  match ec with
  | Ec.ok => ⟨false, false, [Op.writeToOut length]⟩
  | _ => ⟨true, true, []⟩

/-- Completion handler of the `out_socket_` receive in `do_read`:
on success `do_write(2, length)`; on any error close both sockets. -/
def out_read_handler (ec : Ec) (length : Nat) : HandlerResult :=
  match ec with
  | Ec.ok => ⟨false, false, [Op.writeToIn length]⟩
  | _ => ⟨true, true, []⟩

/-- Completion handler of the `out_socket_` write in `do_write` (case 1):
on success `do_read(1)`; on any error close both sockets. -/
def out_write_handler (ec : Ec) : HandlerResult :=
  match ec with
  | Ec.ok => ⟨false, false, do_read_ops 1⟩
  | _ => ⟨true, true, []⟩

/-- Completion handler of the `in_socket_` write in `do_write` (case 2):
on success `do_read(2)`; on any error close both sockets. -/
def in_write_handler (ec : Ec) : HandlerResult :=
  match ec with
  | Ec.ok => ⟨false, false, do_read_ops 2⟩
  | _ => ⟨true, true, []⟩

/-- `async_receive(asio::buffer(buf))` completing with `chunk`: the
received bytes land at the front of the buffer, the rest is unchanged. -/
def recvIntoBuf (buf chunk : List Nat) : List Nat := chunk ++ buf.drop chunk.length

/-- One relay direction as a whole: starting from buffer contents `buf`,
alternately receive a chunk and write the first `chunk.length` buffer
bytes to the sink (`do_write(d, length)` writes
`asio::buffer(buf, length)`), as long as operations succeed. Returns the
sequence of byte blocks written to the sink socket. -/
def pumpWrites (buf : List Nat) : List (List Nat) → List (List Nat)
  | [] => []
  | chunk :: rest =>
      (recvIntoBuf buf chunk).take chunk.length :: pumpWrites (recvIntoBuf buf chunk) rest

/-! ## Acceptor (`Server::do_accept`) -/

/-- One completion of `acceptor_.async_accept`: on success a Session is
created with id `session_id_++` (the counter is a 32-bit `unsigned`, so
the increment wraps modulo `2^32`); on error nothing is created and the
counter is untouched. Either way the accept is re-armed. Returns the new
counter and the id of the created session, if any. -/
def acceptStep (session_id : Nat) (ok : Bool) : Nat × Option Nat :=
  if ok then ((session_id + 1) % 2 ^ 32, some session_id) else (session_id, none)

/-- The accept loop over a sequence of completion results: the ids of the
sessions created, in creation order. -/
def acceptRun (session_id : Nat) : List Bool → List Nat
  | [] => []
  | e :: es =>
      match acceptStep session_id e with
      | (c, some id) => id :: acceptRun c es
      | (c, none) => acceptRun c es

/-- The property claimed of session ids: across the whole run (counter
starts at 0) ids are strictly increasing in creation order. -/
def sessionIdsMonotonic (events : List Bool) : Prop :=
  List.Pairwise (· < ·) (acceptRun 0 events)

/-! ## `main` -/

/-- What the body of the `try` block does after the argument-count check:
runs to completion, throws a `std::exception` with the given message, or
throws something else. -/
inductive BodyOutcome
  | normal
  | exnStd (msg : String)
  | exnOther

/-- Observable outcome of `main`: whether the usage line was printed,
whether a critical log line was emitted, and the exit code. -/
structure MainResult where
  usagePrinted : Bool
  criticalLogged : Bool
  exitCode : Nat

/-- `main` of `boost_socks5.cpp`, given `argc` and the behaviour of the
`try`-block body: `argc != 2` prints usage and returns 1; both `catch`
blocks log at critical level and fall through to the final `return 0`;
a normal run also returns 0. -/
def mainRun (argc : Nat) (body : BodyOutcome) : MainResult :=
  if argc ≠ 2 then ⟨true, false, 1⟩
  else
    match body with
    | BodyOutcome.normal => ⟨false, false, 0⟩
    | BodyOutcome.exnStd _ => ⟨false, true, 0⟩
    | BodyOutcome.exnOther => ⟨false, true, 0⟩

/-! ## Helper lemmas -/

/-- Reading an index a `setBuf` did not touch. -/
theorem byteAt_setBuf_ne (b : Buf) (i v j : Nat) (h : j ≠ i) :
    byteAt (setBuf b i v) j = byteAt b j := by
  simp [byteAt, setBuf, h]

/-- The greeting mutations only touch `in_buf_[1]`. -/
theorem byteAt_greetingReplyBuf_ne_one (buf : Buf) (j : Nat) (h : j ≠ 1) :
    byteAt (greetingReplyBuf buf) j = byteAt buf j := by
  unfold greetingReplyBuf
  split <;> simp [byteAt_setBuf_ne, h, greetingScanBuf]

/-- After the scan, `in_buf_[1]` holds the prepared reply byte. -/
theorem byteAt_greetingReplyBuf_one (buf : Buf) :
    byteAt (greetingReplyBuf buf) 1 = greetingReply1 buf := by
  unfold greetingReplyBuf greetingReply1
  split <;> simp [byteAt, setBuf, greetingScanBuf]

/-- Every index the method scan reads is below `2 + start + fuel`. -/
theorem mem_scanReadIndicesAux (buf : Buf) :
    ∀ fuel start i, i ∈ scanReadIndicesAux buf start fuel → i < 2 + start + fuel := by
  intro fuel
  induction fuel with
  | zero =>
      intro start i h
      simp [scanReadIndicesAux] at h
  | succ n ih =>
      intro start i h
      rw [scanReadIndicesAux] at h
      rcases List.mem_cons.mp h with h1 | h2
      · omega
      · split at h2
        · simp at h2
        · have := ih (start + 1) i h2
          omega

/-- Taking the length of the first summand of an append. -/
theorem take_length_append (c x : List Nat) : (c ++ x).take c.length = c := by
  induction c with
  | nil => rfl
  | cons a t ih => simp [ih]

/-- When every received chunk fits the buffer, the relay loop writes each
chunk back out verbatim. -/
theorem pumpWrites_exact (cs : List (List Nat)) :
    ∀ buf : List Nat, (∀ c ∈ cs, c.length ≤ buf.length) → pumpWrites buf cs = cs := by
  induction cs with
  | nil => intro buf _; rfl
  | cons c rest ih =>
      intro buf h
      have hc : c.length ≤ buf.length := h c (List.mem_cons_self c rest)
      have hbuf : (recvIntoBuf buf c).length = buf.length := by
        simp [recvIntoBuf]
        omega
      have htake : (recvIntoBuf buf c).take c.length = c := take_length_append c _
      rw [pumpWrites, htake, ih (recvIntoBuf buf c) ?_]
      intro d hd
      rw [hbuf]
      exact h d (List.mem_cons_of_mem _ hd)

/-- Closed form of the accept loop: with the counter starting at
`c < 2^32`, the ids handed out are `c, c+1, ...` modulo `2^32`, one per
successful accept; failed accepts contribute nothing. -/
theorem acceptRun_closed_form (events : List Bool) :
    ∀ c, c < 2 ^ 32 →
      acceptRun c events = (List.range (events.count true)).map (fun j => (c + j) % 2 ^ 32) := by
  induction events with
  | nil => intro c _; rfl
  | cons e es ih =>
      intro c hc
      cases e with
      | false =>
          have hstep : acceptRun c (false :: es) = acceptRun c es := by
            simp [acceptRun, acceptStep]
          have hcount : (false :: es).count true = es.count true := by simp
          rw [hstep, hcount, ih c hc]
      | true =>
          have hstep : acceptRun c (true :: es) = c :: acceptRun ((c + 1) % 2 ^ 32) es := by
            simp [acceptRun, acceptStep]
          have hcount : (true :: es).count true = es.count true + 1 := by simp
          have hmod : (c + 1) % 2 ^ 32 < 2 ^ 32 := Nat.mod_lt _ (by norm_num)
          have hfun : (fun j => ((c + 1) % 2 ^ 32 + j) % 2 ^ 32) =
              ((fun j => (c + j) % 2 ^ 32) ∘ Nat.succ) := by
            funext j
            show ((c + 1) % 2 ^ 32 + j) % 2 ^ 32 = (c + Nat.succ j) % 2 ^ 32
            rw [Nat.mod_add_mod, Nat.add_assoc, Nat.add_comm 1 j]
          rw [hstep, hcount, ih _ hmod, hfun, List.range_succ_eq_map, List.map_cons,
            List.map_map]
          congr 1
          rw [Nat.add_zero, Nat.mod_eq_of_lt hc]

/-! ## Claim theorems -/

/-- Claim C1: a request whose address-type byte is none of 0x01/0x03/0x04
should log and transition to CLOSED with no resolution and with
`remote_host_`/`remote_port_` unpopulated. The code instead falls through
to `do_resolve()` (the `default:` case of the `switch` only `break`s):
evaluated at a concrete atyp-0x02 request, the handler invokes resolution
with the untouched (empty) host and port. -/
theorem C1_unsupported_atyp_falls_through_to_resolve :
    read_socks5_request 5 (bufOfList [5, 1, 0, 2, 0]) ⟨"", ""⟩ =
      ReqAction.resolve "" "" := by decide

/-- Claim C2 (amended): an exception reaching the top level of `main` is
caught, logged at critical level, and `main` returns 0 (not a nonzero
code: the `catch` blocks fall through to `return 0`); a normal run exits
with code 0; an argument count other than 2 prints the usage line and
exits with code 1. -/
theorem C2_main_exit_codes (argc : Nat) (msg : String) (body : BodyOutcome)
    (h : argc ≠ 2) :
    mainRun argc body = ⟨true, false, 1⟩ ∧
    mainRun 2 BodyOutcome.normal = ⟨false, false, 0⟩ ∧
    mainRun 2 (BodyOutcome.exnStd msg) = ⟨false, true, 0⟩ ∧
    mainRun 2 BodyOutcome.exnOther = ⟨false, true, 0⟩ := by
  refine ⟨?_, rfl, rfl, rfl⟩
  unfold mainRun
  rw [if_pos h]

/-- Claim C2, counterexample to the claim as stated: a `std::exception`
propagating to the top level of `main` is logged at critical level but
the process exits with code 0, not a nonzero code. -/
theorem C2_exception_exits_zero :
    (mainRun 2 (BodyOutcome.exnStd "boom")).criticalLogged = true ∧
      (mainRun 2 (BodyOutcome.exnStd "boom")).exitCode = 0 :=
  ⟨rfl, rfl⟩

/-- Claim C2 witness: the usage branch at `argc = 3`. -/
theorem C2_main_exit_codes_witness :
    mainRun 3 BodyOutcome.normal = ⟨true, false, 1⟩ :=
  (C2_main_exit_codes 3 "x" BodyOutcome.normal (by decide)).1

/-- Claim C3, counterexample to the claim as stated: for the greeting
`05 02 01` received with length 3 (a valid greeting: `length ≥ 3` and
`in_buf_[0] = 0x05`), the method scan reads index 3, which is not below
the received length 3. -/
theorem C3_scan_reads_past_received_length :
    ¬ (3 < 3 ∨ byteAt (bufOfList [5, 2, 1]) 0 ≠ 0x05) ∧
      ¬ scanWithinReceived 3 (bufOfList [5, 2, 1]) := by decide

/-- Claim C3 (amended): every index the READ_GREETING method scan reads is
below `2 + n` where `n = in_buf_[1]` is the NMETHODS byte, hence below
`2 + 255 = 257` (so within the buffer allocation whenever
`buffer_size ≥ 257`, e.g. the default 8192); the scan is bounded by
NMETHODS, not by the number of bytes actually received. -/
theorem C3_scan_bounded_by_nmethods (buf : Buf) (i : Nat)
    (h : i ∈ scanReadIndices buf) :
    i < 2 + byteAt buf 1 ∧ 2 + byteAt buf 1 ≤ 257 := by
  have h1 := mem_scanReadIndicesAux (greetingScanBuf buf) (byteAt buf 1) 0 i h
  have h2 : byteAt buf 1 < 256 := Nat.mod_lt _ (by norm_num)
  omega

/-- Claim C3 witness: on the greeting `05 01 00` the scan reads index 2,
which is below `2 + NMETHODS = 3 ≤ 257`. -/
theorem C3_scan_bounded_by_nmethods_witness :
    2 < 2 + byteAt (bufOfList [5, 1, 0]) 1 ∧ 2 + byteAt (bufOfList [5, 1, 0]) 1 ≤ 257 :=
  C3_scan_bounded_by_nmethods (bufOfList [5, 1, 0]) 2 (by decide)

/-- Claim C4: after a successful reply, each relay direction alternates
receive and write: the receive-completion handlers issue exactly one
write of the just-received `length` bytes from the same per-direction
buffer, the write-completion handlers re-issue exactly the next receive
on the same direction, and consequently the sequence of byte blocks
written to the sink equals the sequence of chunks received from the
source — any byte sequence sent through an established relay reaches the
peer exactly and in order, in both directions. -/
theorem C4_relay_preserves_bytes (length : Nat) (buf : List Nat)
    (chunks : List (List Nat)) (h : ∀ c ∈ chunks, c.length ≤ buf.length) :
    in_read_handler Ec.ok length = ⟨false, false, [Op.writeToOut length]⟩ ∧
    out_read_handler Ec.ok length = ⟨false, false, [Op.writeToIn length]⟩ ∧
    out_write_handler Ec.ok = ⟨false, false, [Op.receiveIn]⟩ ∧
    in_write_handler Ec.ok = ⟨false, false, [Op.receiveOut]⟩ ∧
    pumpWrites buf chunks = chunks ∧
    (pumpWrites buf chunks).flatten = chunks.flatten := by
  have hp := pumpWrites_exact chunks buf h
  exact ⟨rfl, rfl, by decide, by decide, hp, by rw [hp]⟩

/-- Claim C4 witness: a two-chunk relay through a 2-byte buffer. -/
theorem C4_relay_preserves_bytes_witness :
    pumpWrites [0, 0] [[7], [8, 9]] = [[7], [8, 9]] :=
  (C4_relay_preserves_bytes 1 [0, 0] [[7], [8, 9]] (by decide)).2.2.2.2.1

/-- Claim C5: during RELAY, whenever a receive or a write on either socket
completes with any error — EOF included — the completion handler closes
both `in_socket_` and `out_socket_` and issues no further I/O. -/
theorem C5_relay_error_closes_both_sockets (ec : Ec) (length : Nat)
    (h : ec ≠ Ec.ok) :
    in_read_handler ec length = ⟨true, true, []⟩ ∧
    out_read_handler ec length = ⟨true, true, []⟩ ∧
    out_write_handler ec = ⟨true, true, []⟩ ∧
    in_write_handler ec = ⟨true, true, []⟩ := by
  cases ec with
  | ok => exact absurd rfl h
  | eof => exact ⟨rfl, rfl, rfl, rfl⟩
  | otherErr => exact ⟨rfl, rfl, rfl, rfl⟩

/-- Claim C5 witness: the EOF case. -/
theorem C5_relay_error_closes_both_sockets_witness :
    in_read_handler Ec.eof 0 = ⟨true, true, []⟩ ∧
    out_read_handler Ec.eof 0 = ⟨true, true, []⟩ ∧
    out_write_handler Ec.eof = ⟨true, true, []⟩ ∧
    in_write_handler Ec.eof = ⟨true, true, []⟩ :=
  C5_relay_error_closes_both_sockets Ec.eof 0 (by decide)

/-- Claim C9 (amended): the accept counter is untouched by a failed accept
and increments (modulo `2^32`, being a 32-bit `unsigned`) exactly on each
successful accept; session ids are strictly monotonic in creation order
as long as at most `2^32` sessions are created in the process. -/
theorem C9_session_ids_monotonic_up_to_wrap (events : List Bool) (c : Nat)
    (h : events.count true ≤ 2 ^ 32) :
    acceptStep c false = (c, none) ∧
    acceptStep c true = ((c + 1) % 2 ^ 32, some c) ∧
    sessionIdsMonotonic events := by
  refine ⟨by simp [acceptStep], by simp [acceptStep], ?_⟩
  unfold sessionIdsMonotonic
  rw [acceptRun_closed_form events 0 (by norm_num)]
  rw [List.pairwise_iff_getElem]
  intro i j hi hj hij
  simp only [List.length_map, List.length_range] at hi hj
  simp only [List.getElem_map, List.getElem_range, Nat.zero_add]
  rw [Nat.mod_eq_of_lt (lt_of_lt_of_le hi h), Nat.mod_eq_of_lt (lt_of_lt_of_le hj h)]
  exact hij

/-- Claim C9 witness: a run with a failed accept between two successes. -/
theorem C9_session_ids_monotonic_up_to_wrap_witness :
    acceptStep 5 false = (5, none) ∧
    acceptStep 5 true = ((5 + 1) % 2 ^ 32, some 5) ∧
    sessionIdsMonotonic [true, false, true] :=
  C9_session_ids_monotonic_up_to_wrap [true, false, true] 5 (by decide)

/-- Claim C9, counterexample to the claim as stated: after `2^32`
successful accepts the 32-bit counter wraps, so the session created by
accept number `2^32 + 1` receives id 0, smaller than its predecessor's
id `2^32 - 1`: ids are not strictly monotonic over an unbounded process. -/
theorem C9_monotonic_fails_at_wraparound :
    ¬ sessionIdsMonotonic (List.replicate (2 ^ 32 + 1) true) := by
  intro hp
  unfold sessionIdsMonotonic at hp
  rw [acceptRun_closed_form (List.replicate (2 ^ 32 + 1) true) 0 (by norm_num)] at hp
  have hcount : (List.replicate (2 ^ 32 + 1) true).count true = 2 ^ 32 + 1 := by
    rw [List.count_replicate_self]
  rw [hcount] at hp
  have hlen : ((List.range (2 ^ 32 + 1)).map (fun j => (0 + j) % 2 ^ 32)).length =
      2 ^ 32 + 1 := by simp
  have h2 := List.pairwise_iff_getElem.mp hp (2 ^ 32 - 1) (2 ^ 32)
    (by rw [hlen]; norm_num) (by rw [hlen]; norm_num) (by norm_num)
  simp only [List.getElem_map, List.getElem_range] at h2
  norm_num at h2

/-- Claim C10: a CONNECT request with atyp 0x03, name-length byte 0 and
total received length exactly 7 is accepted at the wire level:
`remote_host_` becomes the empty string, `remote_port_` the decimal of
the two bytes `in_buf_[5..7]`, and resolution is attempted rather than
the request being rejected as a length mismatch. -/
theorem C10_zero_length_domain_accepted (buf : Buf) (prev : HostPort)
    (h0 : byteAt buf 0 = 0x05) (h1 : byteAt buf 1 = 0x01)
    (h3 : byteAt buf 3 = 0x03) (h4 : byteAt buf 4 = 0) :
    read_socks5_request 7 buf prev =
      ReqAction.resolve "" (toString (ntohs16 (byteAt buf 5) (byteAt buf 6))) := by
  simp only [read_socks5_request, h0, h1, h3, h4, domainString]
  norm_num

/-- Claim C10 witness: the request `05 01 00 03 00 00 09` resolves to the
empty host and port "9". -/
theorem C10_zero_length_domain_accepted_witness :
    read_socks5_request 7 (bufOfList [5, 1, 0, 3, 0, 0, 9]) ⟨"", ""⟩ =
      ReqAction.resolve "" "9" :=
  C10_zero_length_domain_accepted (bufOfList [5, 1, 0, 3, 0, 0, 9]) ⟨"", ""⟩
    (by decide) (by decide) (by decide) (by decide)

/-- The greeting scan buffer differs from the original only at index 1. -/
theorem byteAt_greetingScanBuf_ne_one (buf : Buf) (j : Nat) (h : j ≠ 1) :
    byteAt (greetingScanBuf buf) j = byteAt buf j := by
  unfold greetingScanBuf
  exact byteAt_setBuf_ne buf 1 0xFF j h

/-- Claim C8 -/
theorem C8_greeting (length : Nat) (buf : Buf) :
    (read_socks5_handshake length buf = GreetStep.closed ↔
      (length < 3 ∨ byteAt buf 0 ≠ 0x05)) ∧
    (¬ (length < 3 ∨ byteAt buf 0 ≠ 0x05) →
      read_socks5_handshake length buf =
        GreetStep.writeBytes [0x05, greetingReply1 buf] (greetingReplyBuf buf) ∧
      (greetingReply1 buf = 0x00 ↔ ∃ m, m < byteAt buf 1 ∧ byteAt buf (2 + m) = 0x00) ∧
      (greetingReply1 buf = 0x00 ∨ greetingReply1 buf = 0xFF) ∧
      write_socks5_handshake (greetingReplyBuf buf) =
        (if greetingReply1 buf = 0xFF then GreetNext.closed else GreetNext.readRequest)) := by
  constructor
  · unfold read_socks5_handshake
    split
    · rename_i hc
      exact ⟨fun _ => hc, fun _ => rfl⟩
    · rename_i hc
      exact ⟨fun hcontr => GreetStep.noConfusion hcontr, fun hx => absurd hx hc⟩
  · intro h
    have h0 : byteAt buf 0 = 0x05 := by
      push_neg at h
      exact h.2
    refine ⟨?_, ?_, ?_, ?_⟩
    · unfold read_socks5_handshake
      rw [if_neg h]
      rw [byteAt_greetingReplyBuf_ne_one buf 0 (by decide), h0,
        byteAt_greetingReplyBuf_one]
    · unfold greetingReply1
      constructor
      · intro hr
        by_cases hfound : hasNoAuthMethod buf
        · unfold hasNoAuthMethod findNoAuth at hfound
          rcases List.any_eq_true.mp hfound with ⟨m, hm, hzero⟩
          rw [beq_iff_eq, byteAt_greetingScanBuf_ne_one buf (2 + m) (by omega)] at hzero
          exact ⟨m, List.mem_range.mp hm, hzero⟩
        · rw [if_neg hfound] at hr
          exact absurd hr (by norm_num)
      · intro ⟨m, hm, hzero⟩
        have hfound : hasNoAuthMethod buf = true := by
          unfold hasNoAuthMethod findNoAuth
          refine List.any_eq_true.mpr ⟨m, List.mem_range.mpr hm, ?_⟩
          rw [beq_iff_eq, byteAt_greetingScanBuf_ne_one buf (2 + m) (by omega)]
          exact hzero
        rw [if_pos hfound]
    · unfold greetingReply1
      split
      · exact Or.inl rfl
      · exact Or.inr rfl
    · unfold write_socks5_handshake
      rw [byteAt_greetingReplyBuf_one]

/-- Claim C6 -/
theorem C6_request_parsing (length : Nat) (buf : Buf) (prev : HostPort)
    (h5 : 5 ≤ length) (h0 : byteAt buf 0 = 0x05) (h1 : byteAt buf 1 = 0x01) :
    (byteAt buf 3 = 0x01 →
      (length = 10 → read_socks5_request length buf prev =
        ReqAction.resolve
          (address_v4_to_string
            (ntohl32 (byteAt buf 4) (byteAt buf 5) (byteAt buf 6) (byteAt buf 7)))
          (toString (ntohs16 (byteAt buf 8) (byteAt buf 9)))) ∧
      (length ≠ 10 → read_socks5_request length buf prev = ReqAction.close)) ∧
    (byteAt buf 3 = 0x03 →
      (length = 5 + byteAt buf 4 + 2 → read_socks5_request length buf prev =
        ReqAction.resolve (domainString buf (byteAt buf 4))
          (toString (ntohs16 (byteAt buf (5 + byteAt buf 4))
            (byteAt buf (5 + byteAt buf 4 + 1))))) ∧
      (length ≠ 5 + byteAt buf 4 + 2 →
        read_socks5_request length buf prev = ReqAction.close)) ∧
    (byteAt buf 3 = 0x04 →
      (length = 22 → read_socks5_request length buf prev =
        ReqAction.resolve (address_v6_to_string (fun k => byteAt buf (4 + k)))
          (toString (ntohs16 (byteAt buf 20) (byteAt buf 21)))) ∧
      (length ≠ 22 → read_socks5_request length buf prev = ReqAction.close)) := by
  have houter : ¬ (length < 5 ∨ byteAt buf 0 ≠ 0x05 ∨ byteAt buf 1 ≠ 0x01) := by
    push_neg
    exact ⟨by omega, h0, h1⟩
  refine ⟨fun h3 => ⟨fun hl => ?_, fun hl => ?_⟩,
          fun h3 => ⟨fun hl => ?_, fun hl => ?_⟩,
          fun h3 => ⟨fun hl => ?_, fun hl => ?_⟩⟩
  · simp only [read_socks5_request]
    rw [if_neg houter, h3, if_pos (rfl : (1 : Nat) = 1),
      if_neg (by omega : ¬length ≠ 10)]
  · simp only [read_socks5_request]
    rw [if_neg houter, h3, if_pos (rfl : (1 : Nat) = 1), if_pos hl]
  · simp only [read_socks5_request]
    rw [if_neg houter, h3, if_neg (by norm_num : ¬(3 : Nat) = 1),
      if_pos (rfl : (3 : Nat) = 3),
      if_neg (by omega : ¬length ≠ 5 + byteAt buf 4 + 2)]
  · simp only [read_socks5_request]
    rw [if_neg houter, h3, if_neg (by norm_num : ¬(3 : Nat) = 1),
      if_pos (rfl : (3 : Nat) = 3), if_pos hl]
  · simp only [read_socks5_request]
    rw [if_neg houter, h3, if_neg (by norm_num : ¬(4 : Nat) = 1),
      if_neg (by norm_num : ¬(4 : Nat) = 3), if_pos (rfl : (4 : Nat) = 4),
      if_neg (by omega : ¬length ≠ 22)]
  · simp only [read_socks5_request]
    rw [if_neg houter, h3, if_neg (by norm_num : ¬(4 : Nat) = 1),
      if_neg (by norm_num : ¬(4 : Nat) = 3), if_pos (rfl : (4 : Nat) = 4),
      if_pos hl]

/-- Claim C6 witness -/
theorem C6_request_parsing_witness :
    read_socks5_request 10 (bufOfList [5, 1, 0, 1, 127, 0, 0, 1, 0, 80]) ⟨"", ""⟩ =
      ReqAction.resolve "127.0.0.1" "80" :=
  ((C6_request_parsing 10 (bufOfList [5, 1, 0, 1, 127, 0, 0, 1, 0, 80]) ⟨"", ""⟩
      (by decide) (by decide) (by decide)).1 (by decide)).1 rfl

/-- Claim C8 witness -/
theorem C8_greeting_witness :
    read_socks5_handshake 3 (bufOfList [5, 1, 0]) =
      GreetStep.writeBytes [0x05, greetingReply1 (bufOfList [5, 1, 0])]
        (greetingReplyBuf (bufOfList [5, 1, 0])) ∧
    greetingReply1 (bufOfList [5, 1, 0]) = 0x00 ∧
    write_socks5_handshake (greetingReplyBuf (bufOfList [5, 1, 0])) =
      (if greetingReply1 (bufOfList [5, 1, 0]) = 0xFF then GreetNext.closed
       else GreetNext.readRequest) :=
  ⟨((C8_greeting 3 (bufOfList [5, 1, 0])).2 (by decide)).1,
   (((C8_greeting 3 (bufOfList [5, 1, 0])).2 (by decide)).2.1).mpr ⟨0, by decide, by decide⟩,
   ((C8_greeting 3 (bufOfList [5, 1, 0])).2 (by decide)).2.2.2⟩

/-- Claim C7 -/
theorem C7_reply_encoding (buf : Buf) (addr port : Nat) (addrBytes : Nat → Nat) :
    (write_socks5_response buf (Endpoint.v4 addr port)).map
        (fun r => (writtenBytes r.1 r.2, r.2)) =
      some ([0x05, 0x00, 0x00, 0x01] ++ htonl_bytes addr ++ htons_bytes port, 10) ∧
    (write_socks5_response buf (Endpoint.v6 addrBytes port)).map
        (fun r => (writtenBytes r.1 r.2, r.2)) =
      some ([0x05, 0x00, 0x00, 0x04] ++ (List.range 16).map (fun k => addrBytes k % 256)
          ++ htons_bytes port, 22) := by
  constructor
  · show some _ = _
    simp only [Option.map_some]
    refine congrArg some (Prod.ext ?_ rfl)
    show writtenBytes _ 10 = _
    have h10 : List.range 10 = [0, 1, 2, 3, 4, 5, 6, 7, 8, 9] := rfl
    simp only [writtenBytes, h10, List.map_cons, List.map_nil, htonl_bytes, htons_bytes,
      memcpyBuf, setBuf, List.length_cons, List.length_nil, List.getD]
    norm_num
  · show some _ = _
    simp only [Option.map_some]
    refine congrArg some (Prod.ext ?_ rfl)
    show writtenBytes _ 22 = _
    have h22 : List.range 22 =
        [0, 1, 2, 3, 4, 5, 6, 7, 8, 9, 10, 11, 12, 13, 14, 15, 16, 17, 18, 19, 20, 21] := rfl
    have h16 : List.range 16 = [0, 1, 2, 3, 4, 5, 6, 7, 8, 9, 10, 11, 12, 13, 14, 15] := rfl
    simp only [writtenBytes, h22, h16, List.map_cons, List.map_nil, htons_bytes,
      memcpyBuf, setBuf, List.length_cons, List.length_nil, List.getD]
    norm_num
